import Mathlib

/-!
Verification of the Claude-CLI bridge (`src/claude_bridge.py`).

This file shallowly embeds the bridge's pure core: the model-name mapping
(`MODEL_MAPPING` / `_map_model`), the prompt formatter
(`_format_messages_as_prompt`), the non-streaming result handling in
`send_message`, and the streaming translation loop in `send_message_stream`
(delta computation against the running buffer, event synthesis, and the
position of the subprocess reap).  Python runtime values that flow through
the code (results of `json.loads`, dict lookups with defaults, truthiness
tests) are modelled by the `Json` type below; Python exceptions raised by
attribute/type errors are modelled with `Except`.  Subprocess behaviour is
an input to the embedded functions: the code under test only ever observes
the exit code, the decoded stdout/stderr text, and the decoded stdout
lines, so those are the parameters.
-/

/-- A Python value produced by `json.loads`, as the bridge can observe it.
Numbers are exact `mantissa * 10 ^ exponent` (the bridge never does float
arithmetic on them, it only stores and compares them); `nan` and `inf`
exist because Python's `json.loads` accepts `NaN` / `Infinity` /
`-Infinity`. -/
inductive Json where
  | null
  | bool (b : Bool)
  | num (mantissa : Int) (exponent : Int)
  | nan
  | inf (neg : Bool)
  | str (s : String)
  | arr : (elems : List Json) → Json
  | obj : (members : List (String × Json)) → Json

/-- Python truthiness (`if x:`) for the values the bridge tests. -/
def Json.truthy : Json → Bool
  | .null => false
  | .bool b => b
  | .num m _ => m ≠ 0
  | .nan => true
  | .inf _ => true
  | .str s => s ≠ ""
  | .arr l => !l.isEmpty
  | .obj l => !l.isEmpty

/-- Python `value == "lit"` for a string literal right-hand side: true
exactly when the value is that string (no other Python value compares
equal to a `str`). -/
def Json.eqStr : Json → String → Bool
  | .str t, s => t = s
  | _, _ => false

/-- Python `dict[k]` lookup over the member list of a parsed object.
Later duplicate keys overwrite earlier ones, as in `json.loads`. -/
def dictGet? (members : List (String × Json)) (k : String) : Option Json :=
  members.foldl (fun acc p => if p.1 = k then some p.2 else acc) none

/-- Python `dict.get(k, d)`. -/
def dictGetD (members : List (String × Json)) (k : String) (d : Json) : Json :=
  (dictGet? members k).getD d

/-! ### A model of `json.loads`

Total recursive-descent parsing over the character list, structural on a
fuel counter.  It follows Python's strict JSON mode plus the `NaN` /
`Infinity` extensions: no leading zeros, no control characters inside
strings, string escapes `\" \\ \/ \b \f \n \r \t \uXXXX`, and the whole
input must be a single document surrounded only by whitespace. -/

/-- JSON whitespace, as skipped by Python's parser. -/
def jIsWs (c : Char) : Bool := c = ' ' || c = '\t' || c = '\n' || c = '\r'

/-- Drop leading JSON whitespace. -/
def jSkipWs (cs : List Char) : List Char := cs.dropWhile jIsWs

/-- ASCII decimal digit test. -/
def jIsDigit (c : Char) : Bool := '0' ≤ c && c ≤ '9'

/-- Numeric value of a digit run. -/
def jDigitsVal (ds : List Char) : Nat :=
  ds.foldl (fun a c => a * 10 + (c.toNat - 48)) 0

/-- Value of one hex digit, if it is one. -/
def jHex (c : Char) : Option Nat :=
  if '0' ≤ c && c ≤ '9' then some (c.toNat - 48)
  else if 'a' ≤ c && c ≤ 'f' then some (c.toNat - 87)
  else if 'A' ≤ c && c ≤ 'F' then some (c.toNat - 55)
  else none

/-- Decoding of a single-character JSON string escape. -/
def jEsc : Char → Option Char
  | '"' => some '"'
  | '\\' => some '\\'
  | '/' => some '/'
  | 'b' => some '\x08'
  | 'f' => some '\x0c'
  | 'n' => some '\n'
  | 'r' => some '\r'
  | 't' => some '\t'
  | _ => none

/-- Body of a JSON string after the opening quote: returns the decoded
characters and the input after the closing quote. -/
def jStrBody (acc : List Char) : List Char → Option (List Char × List Char)
  | '"' :: cs => some (acc.reverse, cs)
  | '\\' :: 'u' :: h1 :: h2 :: h3 :: h4 :: cs =>
    match jHex h1, jHex h2, jHex h3, jHex h4 with
    | some a, some b, some c, some d =>
      jStrBody (Char.ofNat (((a * 16 + b) * 16 + c) * 16 + d) :: acc) cs
    | _, _, _, _ => none
  | '\\' :: e :: cs =>
    match jEsc e with
    | none => none
    | some c => jStrBody (c :: acc) cs
  | c :: cs => if c.toNat < 32 then none else jStrBody (c :: acc) cs
  | [] => none

/-- Parse the exponent part of a JSON number, after the `e`/`E`. -/
def jParseExp (mant : Int) (e0 : Int) (r : List Char) : Option (Json × List Char) :=
  let esign : Int := if r.head? = some '-' then -1 else 1
  let r1 : List Char :=
    if r.head? = some '-' || r.head? = some '+' then r.tail else r
  let (eds, r2) := r1.span jIsDigit
  if eds = [] then none
  else some (.num mant (e0 + esign * (jDigitsVal eds : Int)), r2)

/-- Parse a JSON number once a sign has been split off; `cs` starts at the
first digit.  Rejects leading zeros, a dot without digits, and an exponent
without digits, as Python does. -/
def jParseNum (neg : Bool) (cs : List Char) : Option (Json × List Char) :=
  let (ds, rest) := cs.span jIsDigit
  if ds = [] then none
  else if ds.head? = some '0' && ds.length > 1 then none
  else
    let (fds, rest2) : List Char × List Char :=
      match rest with
      | '.' :: r => r.span jIsDigit
      | _ => ([], rest)
    if rest ≠ rest2 && fds = [] then none
    else
      let mant : Int := (jDigitsVal ds * 10 ^ fds.length + jDigitsVal fds : Nat)
      let mant : Int := if neg then -mant else mant
      let e0 : Int := -(fds.length : Int)
      match rest2 with
      | 'e' :: r => jParseExp mant e0 r
      | 'E' :: r => jParseExp mant e0 r
      | _ => some (.num mant e0, rest2)

/-- Match a literal keyword such as `null`. -/
def jLit (pat : List Char) (v : Json) (cs : List Char) : Option (Json × List Char) :=
  if pat.isPrefixOf cs then some (v, cs.drop pat.length) else none

mutual

/-- Parse one JSON value (leading whitespace allowed). -/
def jParseVal : Nat → List Char → Option (Json × List Char)
  | 0, _ => none
  | fuel + 1, cs =>
    match jSkipWs cs with
    | [] => none
    | c :: rest =>
      if c = '{' then jParseObjBody fuel rest
      else if c = '[' then jParseArrBody fuel rest
      else if c = '"' then
        match jStrBody [] rest with
        | some (chars, r) => some (.str (String.mk chars), r)
        | none => none
      else if c = 'n' then jLit ['u', 'l', 'l'] .null rest
      else if c = 't' then jLit ['r', 'u', 'e'] (.bool true) rest
      else if c = 'f' then jLit ['a', 'l', 's', 'e'] (.bool false) rest
      else if c = 'N' then jLit ['a', 'N'] .nan rest
      else if c = 'I' then jLit ['n', 'f', 'i', 'n', 'i', 't', 'y'] (.inf false) rest
      else if c = '-' then
        match rest with
        | 'I' :: r => jLit ['n', 'f', 'i', 'n', 'i', 't', 'y'] (.inf true) r
        | _ => jParseNum true rest
      else if jIsDigit c then jParseNum false (c :: rest)
      else none

/-- Parse an object body, right after the opening brace. -/
def jParseObjBody : Nat → List Char → Option (Json × List Char)
  | 0, _ => none
  | fuel + 1, cs =>
    match jSkipWs cs with
    | '}' :: r => some (.obj [], r)
    | other => jParseMembers fuel other []

/-- Parse one or more `"key": value` members and the closing brace. -/
def jParseMembers : Nat → List Char → List (String × Json) → Option (Json × List Char)
  | 0, _, _ => none
  | fuel + 1, cs, acc =>
    match jSkipWs cs with
    | '"' :: cs' =>
      match jStrBody [] cs' with
      | some (keyChars, r1) =>
        match jSkipWs r1 with
        | ':' :: r2 =>
          match jParseVal fuel r2 with
          | some (v, r3) =>
            let acc' := acc ++ [(String.mk keyChars, v)]
            match jSkipWs r3 with
            | ',' :: r4 => jParseMembers fuel r4 acc'
            | '}' :: r4 => some (.obj acc', r4)
            | _ => none
          | none => none
        | _ => none
      | none => none
    | _ => none

/-- Parse an array body, right after the opening bracket. -/
def jParseArrBody : Nat → List Char → Option (Json × List Char)
  | 0, _ => none
  | fuel + 1, cs =>
    match jSkipWs cs with
    | ']' :: r => some (.arr [], r)
    | other => jParseElems fuel other []

/-- Parse one or more array elements and the closing bracket. -/
def jParseElems : Nat → List Char → List Json → Option (Json × List Char)
  | 0, _, _ => none
  | fuel + 1, cs, acc =>
    match jParseVal fuel cs with
    | some (v, r1) =>
      match jSkipWs r1 with
      | ',' :: r2 => jParseElems fuel r2 (acc ++ [v])
      | ']' :: r2 => some (.arr (acc ++ [v]), r2)
      | _ => none
    | none => none

end

/-- The model of Python's `json.loads`: parse one document, allowing only
whitespace around it; `none` models a raised `json.JSONDecodeError`. -/
def json_loads (s : String) : Option Json :=
  match jParseVal (4 * s.length + 8) s.data with
  | some (v, rest) => if jSkipWs rest = [] then some v else none
  | none => none

example : json_loads "not json" = none := rfl
example : json_loads "5" = some (.num 5 0) := rfl
example : json_loads " \x7b\"a\": 1, \"a\": 2\x7d " =
    some (.obj [("a", .num 1 0), ("a", .num 2 0)]) := rfl
example : dictGetD [("a", .num 1 0), ("a", .num 2 0)] "a" .null = .num 2 0 := rfl
example : json_loads "[true, null, 1.5]" =
    some (.arr [.bool true, .null, .num 15 (-1)]) := rfl
example : json_loads "\"a\\nb\"" = some (.str "a\nb") := rfl
example : json_loads "01" = none := rfl
example : json_loads "1 2" = none := rfl

/-! ### Model name mapping

`MODEL_MAPPING` and `_map_model`, from `claude_bridge.py` lines 11-34. -/

/-- The `MODEL_MAPPING` table: API model names to CLI model names. -/
def MODEL_MAPPING : List (String × String) :=
  [("claude-opus-4-5-20251101", "opus"),
   ("claude-sonnet-4-5-20251101", "sonnet"),
   ("claude-3-5-sonnet-20241022", "sonnet"),
   ("claude-3-5-haiku-20241022", "haiku"),
   ("claude-3-opus-20240229", "opus"),
   ("claude-3-sonnet-20240229", "sonnet"),
   ("claude-3-haiku-20240307", "haiku"),
   ("opus", "opus"),
   ("sonnet", "sonnet"),
   ("haiku", "haiku")]

/-- The mapping lookup `_map_model`: `MODEL_MAPPING.get(model, "sonnet")`. -/
def _map_model (model : String) : String :=
  (MODEL_MAPPING.lookup model).getD "sonnet"

/-! ### The streaming delta computation

The body of the `async for` loop of `send_message_stream`
(`claude_bridge.py` lines 209-235), and the surrounding event synthesis
(lines 178-250).  One iteration of the loop yields at most one
`content_block_delta` event, whose text is computed against the running
`buffer`. -/

/-- Python `text.startswith(buffer)` on `str` values: codepoint-level
prefix test. -/
def pyStartswith (s pre : String) : Bool := pre.data.isPrefixOf s.data

/-- The characters Python's `str.strip()` removes by default (the ASCII
ones; the bridge only ever strips CLI output). -/
def pyIsSpace (c : Char) : Bool :=
  c = ' ' || c = '\t' || c = '\n' || c = '\r' || c = '\x0b' || c = '\x0c'

/-- Python `s.strip()`: drop leading and trailing whitespace. -/
def pyStrip (s : String) : String :=
  ⟨(((s.data.dropWhile pyIsSpace).reverse).dropWhile pyIsSpace).reverse⟩

/-- Lines 215-224: given the old `buffer` and a newly observed full `text`
snapshot, the updated buffer and the text of the delta to yield, if any.
`text[len(buffer):]` slices codepoints, so it is `String.drop`. -/
def computeDelta (buffer text : String) : String × Option String :=
  if text ≠ "" ∧ text ≠ buffer then
    let new_text := if pyStartswith text buffer then text.drop buffer.length else text
    (text, if new_text ≠ "" then some new_text else none)
  else (buffer, none)

/-- The loop's mutable state: the accumulated assistant text and the
running `output_tokens` value (a Python value, initially the int `0`,
thereafter whatever the JSON carried). -/
structure StreamState where
  buffer : String
  output_tokens : Json

/-- Initial loop state: `buffer = ""` and `output_tokens = 0` (lines 209-210). -/
def initState : StreamState := ⟨"", Json.num 0 0⟩

/-- Lines 216-227: handling of `content[0]` once
`msg.get("content", [])` has been fetched.  Python raises (modelled as
`.error`) when the loop applies `len`, indexing, `.get` or `.startswith`
to a value of the wrong runtime type; those exceptions escape to the
generator's outer `except Exception` handler. -/
def contentDelta (st : StreamState) (content : Json) :
    Except String (StreamState × Option String) :=
  if content.truthy then
    match content with
    | .arr (first :: _) =>
      match first with
      | .obj firstFields =>
        match dictGetD firstFields "text" (.str "") with
        | .str s =>
          let p := computeDelta st.buffer s
          .ok ({ st with buffer := p.1 }, p.2)
        | t =>
          if t.truthy then .error "AttributeError: object has no attribute startswith"
          else .ok (st, none)
      | _ => .error "AttributeError: object has no attribute get"
    | .arr [] => .ok (st, none)
    | .str _ => .error "AttributeError: str object has no attribute get"
    | .obj _ => .error "KeyError: 0"
    | _ => .error "TypeError: object has no len"
  else .ok (st, none)

/-- Lines 212-235: processing of one parsed JSON event from the
subprocess's stdout.  `assistant` events update the buffer and may
produce a delta plus a usage update; `result` events update usage only;
every other type is ignored.  Calling `.get` on a non-dict raises. -/
def handleEvent (st : StreamState) (event : Json) :
    Except String (StreamState × Option String) :=
  match event with
  | .obj evFields =>
    let event_type := dictGetD evFields "type" (.str "")
    if event_type.eqStr "assistant" then
      match dictGetD evFields "message" (.obj []) with
      | .obj msgFields =>
        match contentDelta st (dictGetD msgFields "content" (.arr [])) with
        | .error e => .error e
        | .ok (st', d) =>
          match dictGetD msgFields "usage" (.obj []) with
          | .obj usageFields =>
            .ok ({ st' with
                    output_tokens := dictGetD usageFields "output_tokens" st'.output_tokens },
                 d)
          | _ => .error "AttributeError: object has no attribute get"
      | _ => .error "AttributeError: object has no attribute get"
    else if event_type.eqStr "result" then
      match dictGetD evFields "usage" (.obj []) with
      | .obj usageFields =>
        .ok ({ st with
                output_tokens := dictGetD usageFields "output_tokens" st.output_tokens },
             none)
      | _ => .error "AttributeError: object has no attribute get"
    else .ok (st, none)
  | _ => .error "AttributeError: object has no attribute get"

/-- Lines 210-235, one `async for` iteration: strip the decoded line,
skip it if blank, skip it if not JSON (`except json.JSONDecodeError:
pass`), otherwise handle the parsed event. -/
def stepLine (st : StreamState) (line : String) :
    Except String (StreamState × Option String) :=
  let decoded := pyStrip line
  if decoded = "" then .ok (st, none)
  else
    match json_loads decoded with
    | none => .ok (st, none)
    | some event => handleEvent st event

/-- The whole `async for` loop over the subprocess's stdout lines: the
final state and the delta texts yielded, in order — or, when an
iteration raises, the delta texts yielded before the fault and its
message. -/
def processLines (st : StreamState) :
    List String → Except (List String × String) (StreamState × List String)
  | [] => .ok (st, [])
  | l :: ls =>
    match stepLine st l with
    | .error msg => .error ([], msg)
    | .ok (st', d) =>
      match processLines st' ls with
      | .ok (stf, ds) => .ok (stf, d.toList ++ ds)
      | .error (ds, msg) => .error (d.toList ++ ds, msg)

/-- Same loop, over already-parsed event values: used to state properties
about sequences of observed subprocess events. -/
def processEvents (st : StreamState) :
    List Json → Except (List String × String) (StreamState × List String)
  | [] => .ok (st, [])
  | e :: es =>
    match handleEvent st e with
    | .error msg => .error ([], msg)
    | .ok (st', d) =>
      match processEvents st' es with
      | .ok (stf, ds) => .ok (stf, d.toList ++ ds)
      | .error (ds, msg) => .error (d.toList ++ ds, msg)

/-- An `assistant` stream-json event whose single content block carries
the full text snapshot `s`, the shape `send_message_stream` reads its
deltas from. -/
def assistantEvent (s : String) : Json :=
  .obj [("type", .str "assistant"),
        ("message", .obj [("content", .arr [.obj [("text", .str s)]])])]

/-- The delta texts the loop emits for a sequence of full-text snapshots,
starting from the empty buffer. -/
def assistantDeltas (snaps : List String) : List String :=
  match processEvents initState (snaps.map assistantEvent) with
  | .ok (_, ds) => ds
  | .error (ds, _) => ds

/-- Concatenation of a list of emitted delta texts. -/
def concatAll : List String → String
  | [] => ""
  | s :: l => s ++ concatAll l

/-! ### The streaming generator -/

/-- One wire-protocol event yielded by `send_message_stream`.  Constant
payload fields of the source (the empty initial `content` list, the zero
initial usage, `stop_sequence: None`, `"type": "api_error"`) are fixed by
the constructors; varying fields are arguments. -/
inductive Event where
  | message_start (id : String) (model : String)
  | content_block_start (index : Nat)
  | content_block_delta (index : Nat) (text : String)
  | content_block_stop (index : Nat)
  | message_delta (stop_reason : String) (output_tokens : Json)
  | message_stop
  | error (errType : String) (message : String)

/-- One observable step of the generator: yielding an event, or awaiting
the subprocess exit status (`await process.wait()`, line 250). -/
inductive StreamAct where
  | yieldEv (e : Event)
  | waitProc

/-- Whether an action is the subprocess reap. -/
def StreamAct.isWait : StreamAct → Bool
  | .waitProc => true
  | .yieldEv _ => false

/-- How the spawn and the read loop of one streaming call go: the
subprocess spawns and its stdout yields the given decoded lines, or the
spawn raises `FileNotFoundError`, or the spawn raises some other
exception with the given message. -/
inductive SpawnStream where
  | ok (lines : List String)
  | fileNotFound
  | exc (msg : String)

/-- The generator `send_message_stream` (lines 178-261) as the ordered trace of its
observable actions.  On a successful spawn it yields the two bootstrap
events, then the deltas from the loop; if the loop raises, the single
error event ends the trace (the `except` handlers do not reach
`process.wait()`); otherwise the three teardown events follow and only
then is the process awaited. -/
def send_message_stream (model msgId : String) : SpawnStream → List StreamAct
  | .fileNotFound => [.yieldEv (.error "api_error" "Claude Code CLI not found")]
  | .exc m => [.yieldEv (.error "api_error" m)]
  | .ok lines =>
    [.yieldEv (.message_start msgId model), .yieldEv (.content_block_start 0)] ++
    (match processLines initState lines with
     | .ok (st, ds) =>
       (ds.map fun t => StreamAct.yieldEv (.content_block_delta 0 t)) ++
       [.yieldEv (.content_block_stop 0),
        .yieldEv (.message_delta "end_turn" st.output_tokens),
        .yieldEv .message_stop,
        .waitProc]
     | .error (ds, m) =>
       (ds.map fun t => StreamAct.yieldEv (.content_block_delta 0 t)) ++
       [.yieldEv (.error "api_error" m)])

/-- The events a consumer of the stream receives, in order. -/
def streamEvents (model msgId : String) (oc : SpawnStream) : List Event :=
  (send_message_stream model msgId oc).filterMap fun a =>
    match a with
    | StreamAct.yieldEv e => some e
    | StreamAct.waitProc => none

/-! ### The non-streaming path -/

/-- The value `send_message` returns: the Python result dict.  `none`
fields model keys absent from the dict; `some Json.null` models a key
explicitly set to `None`. -/
structure SendResult where
  error : Bool
  message : Option String := none
  content : Option Json := none
  session_id : Option Json := none
  cost_usd : Option Json := none
  duration_ms : Option Json := none
  usage : Option Json := none

/-- What `send_message` observes of its subprocess: a completed run with
exit code and decoded stdout/stderr text, a spawn-time
`FileNotFoundError`, or some other exception with message `msg`. -/
inductive SpawnOutcome where
  | ok (returncode : Int) (stdout : String) (stderr : String)
  | fileNotFound
  | exc (msg : String)

/-- The call `send_message` (lines 82-155): non-zero exit returns stderr's text
(or `"Unknown error"` when stderr is empty); on zero exit, stdout is
stripped and parsed as JSON; a parse failure falls back to a success
carrying the stripped raw text; parsed non-dict JSON raises
`AttributeError` on `.get`, which the outer handler converts to a
failure; spawn failures map to the fixed messages. -/
def send_message : SpawnOutcome → SendResult
  | .fileNotFound =>
    { error := true, message := some "Claude Code CLI not found. Please install it first." }
  | .exc m => { error := true, message := some m }
  | .ok returncode stdout stderr =>
    if returncode ≠ 0 then
      { error := true, message := some (if stderr ≠ "" then stderr else "Unknown error") }
    else
      let output := pyStrip stdout
      match json_loads output with
      | none => { error := false, content := some (.str output), session_id := some .null }
      | some result =>
        match result with
        | .obj fields =>
          { error := false,
            content := some (dictGetD fields "result" (.str "")),
            session_id := some (dictGetD fields "session_id" .null),
            cost_usd := some (dictGetD fields "total_cost_usd" (.num 0 0)),
            duration_ms := some (dictGetD fields "duration_ms" (.num 0 0)),
            usage := some (dictGetD fields "usage" (.obj [])) }
        | _ => { error := true, message := some "AttributeError: object has no attribute get" }

example : send_message (.ok 2 "" "boom") = { error := true, message := some "boom" } := rfl
example : send_message (.ok 0 "not json\n" "") =
    { error := false, content := some (.str "not json"), session_id := some .null } := rfl
example :
    send_message (.ok 0 "\x7b\"result\": \"hi\", \"session_id\": \"s1\"\x7d" "") =
      { error := false, content := some (.str "hi"), session_id := some (.str "s1"),
        cost_usd := some (.num 0 0), duration_ms := some (.num 0 0),
        usage := some (.obj []) } := rfl
example :
    processLines initState
      ["\x7b\"type\": \"assistant\", \"message\": \x7b\"content\": [\x7b\"text\": \"He\"\x7d]\x7d\x7d",
       "",
       "diag line",
       "\x7b\"type\": \"assistant\", \"message\": \x7b\"content\": [\x7b\"text\": \"Hello\"\x7d]\x7d\x7d",
       "\x7b\"type\": \"result\", \"usage\": \x7b\"output_tokens\": 7\x7d\x7d"] =
      .ok (⟨"Hello", .num 7 0⟩, ["He", "llo"]) := rfl
example : send_message_stream "m" "id" (.ok ["5"]) =
    [.yieldEv (.message_start "id" "m"), .yieldEv (.content_block_start 0),
     .yieldEv (.error "api_error" "AttributeError: object has no attribute get")] := rfl

/-! ### The prompt formatter

`_format_messages_as_prompt` (`claude_bridge.py` lines 55-80).  A message
is a dict that may lack its `role` or `content` key; string content is
used as is; list content is a sequence of parts, each a plain string, a
dict (inspected via `.get("type")` / `.get("text")`), or some other
value (skipped by the `isinstance` tests). -/

/-- One element of a list-valued `content`. -/
inductive Block where
  | bstr (s : String)
  | bdict (fields : List (String × Json))
  | bother (v : Json)

/-- The value under a message's `content` key. -/
inductive MsgContent where
  | str (s : String)
  | blocks (l : List Block)

/-- One element of the `messages` list.  `none` models an absent key. -/
structure Msg where
  role : Option String := none
  content : Option MsgContent := none

/-- Lines 64-70, the inner loop: the Python values appended to
`text_parts`.  A plain string part is kept; a dict part is kept when
`block.get("type") == "text"`, contributing `block.get("text", "")`
(whatever value that holds); anything else is skipped. -/
def blockTexts : List Block → List Json
  | [] => []
  | .bstr s :: bs => .str s :: blockTexts bs
  | .bdict fields :: bs =>
    if (dictGetD fields "type" .null).eqStr "text" then
      dictGetD fields "text" (.str "") :: blockTexts bs
    else blockTexts bs
  | .bother _ :: bs => blockTexts bs

/-- Python `sep.join(parts)`: raises `TypeError` (modelled as `.error`)
when some part is not a `str`. -/
def mapAsStr : List Json → Except String (List String)
  | [] => .ok []
  | .str s :: l => (mapAsStr l).map (s :: ·)
  | _ :: _ => .error "TypeError: sequence item: expected str instance"

/-- Python `sep.join(parts)` over a list of Python values. -/
def pyJoin (sep : String) (l : List Json) : Except String String :=
  (mapAsStr l).map (String.intercalate sep)

/-- Lines 63-71: `msg.get("content", "")` flattened to the string used in
the role-labelled line. -/
def contentToStr : Option MsgContent → Except String String
  | none => .ok ""
  | some (.str s) => .ok s
  | some (.blocks l) => pyJoin "\n" (blockTexts l)

/-- Lines 62-76, one loop iteration: the paragraphs this message appends
to `parts` (one for a `user`/`assistant`/missing role, none
otherwise). -/
def msgPart (m : Msg) : Except String (List String) :=
  let role := m.role.getD "user"
  match contentToStr m.content with
  | .error e => .error e
  | .ok content =>
    if role = "user" then .ok ["User: " ++ content]
    else if role = "assistant" then .ok ["Assistant: " ++ content]
    else .ok []

/-- The message loop: all paragraphs contributed by `messages`. -/
def msgPartsAll : List Msg → Except String (List String)
  | [] => .ok []
  | m :: ms =>
    match msgPart m with
    | .error e => .error e
    | .ok p =>
      match msgPartsAll ms with
      | .error e => .error e
      | .ok rest => .ok (p ++ rest)

/-- The formatter `_format_messages_as_prompt`: the system paragraph is emitted only
when `system` is truthy (`if system:`), then the per-message paragraphs,
all joined by blank lines. -/
def _format_messages_as_prompt (messages : List Msg) (system : Option String) :
    Except String String :=
  let sysParts : List String :=
    match system with
    | some s => if s ≠ "" then ["[System: " ++ s ++ "]"] else []
    | none => []
  match msgPartsAll messages with
  | .error e => .error e
  | .ok rest => .ok (String.intercalate "\n\n" (sysParts ++ rest))

/-! Spec-side formatter characterizations (for the refinement claim):
written from the spec's words, to be compared against the embedding. -/

/-- Spec wording, per content part: "extract text ..., ignoring non-text
parts". -/
def specBlockText : Block → Option String
  | .bstr s => some s
  | .bdict fields =>
    if (dictGetD fields "type" .null).eqStr "text" then
      some (match dictGetD fields "text" (.str "") with
            | .str s => s
            | _ => "")
    else none
  | .bother _ => none

/-- Spec wording, per message: "joining multi-part text content with
newlines". -/
def specText : Option MsgContent → String
  | none => ""
  | some (.str s) => s
  | some (.blocks l) => String.intercalate "\n" (l.filterMap specBlockText)

/-- Spec wording: "a line prefixed by a role label (User: / Assistant:)
for user/assistant roles only — messages with other roles are dropped
silently". -/
def specMsgPara (m : Msg) : Option String :=
  match m.role with
  | some "user" => some ("User: " ++ specText m.content)
  | some "assistant" => some ("Assistant: " ++ specText m.content)
  | _ => none

/-- The claim's wording verbatim: "a bracketed system paragraph first
when the preamble is present", then the role-labelled paragraphs in
order, joined by blank lines. -/
def claimedFormat (messages : List Msg) (system : Option String) : String :=
  let sysParts : List String :=
    match system with
    | some s => ["[System: " ++ s ++ "]"]
    | none => []
  String.intercalate "\n\n" (sysParts ++ messages.filterMap specMsgPara)

/-- The amended wording: the system paragraph appears when the preamble
is present and non-empty (the code tests Python truthiness, so an empty
preamble is treated as absent). -/
def amendedFormat (messages : List Msg) (system : Option String) : String :=
  let sysParts : List String :=
    match system with
    | some s => if s ≠ "" then ["[System: " ++ s ++ "]"] else []
    | none => []
  String.intercalate "\n\n" (sysParts ++ messages.filterMap specMsgPara)

/-- A text-typed dict part carries a string under its `text` key (what
the API data model guarantees; values of other shapes make the Python
`join` raise rather than format). -/
def blockWF : Block → Bool
  | .bdict fields =>
    if (dictGetD fields "type" .null).eqStr "text" then
      match dictGetD fields "text" (.str "") with
      | .str _ => true
      | _ => false
    else true
  | _ => true

/-- All parts of the message's content are well formed. -/
def msgWF (m : Msg) : Bool :=
  match m.content with
  | some (.blocks l) => l.all blockWF
  | _ => true

example :
    _format_messages_as_prompt
      [{ role := some "user", content := some (.str "Hi") },
       { role := some "assistant",
         content := some (.blocks
           [.bstr "a",
            .bdict [("type", .str "text"), ("text", .str "b")],
            .bdict [("type", .str "image"), ("source", .obj [])],
            .bother .null]) },
       { role := some "system", content := some (.str "dropped") }]
      (some "S") =
      .ok "[System: S]\n\nUser: Hi\n\nAssistant: a\nb" := rfl
example : _format_messages_as_prompt [] (some "") = .ok "" := rfl
example : _format_messages_as_prompt [{ content := some (.str "x") }] none =
    .ok "User: x" := rfl

/-! ## Helper lemmas -/

lemma pyStartswith_self (s : String) : pyStartswith s s = true := by
  simp [pyStartswith]

lemma pyStartswith_empty_pre (s : String) : pyStartswith s "" = true := by
  simp [pyStartswith]

lemma append_drop_of_sw {b t : String} (h : pyStartswith t b = true) :
    b ++ t.drop b.length = t := by
  unfold pyStartswith at h
  rw [List.isPrefixOf_iff_prefix] at h
  apply String.ext
  simp only [String.data_append, String.data_drop]
  exact List.prefix_iff_eq_append.mp h

/-- When the new snapshot extends the buffer, the loop replaces the buffer
with the snapshot and the delta it emits (if any) is exactly the missing
suffix: old buffer ++ delta = new snapshot. -/
lemma computeDelta_of_sw {b t : String} (h : pyStartswith t b = true) :
    (computeDelta b t).1 = t ∧ b ++ ((computeDelta b t).2.getD "") = t := by
  by_cases hc : t ≠ "" ∧ t ≠ b
  · have hval : computeDelta b t =
        (t, if t.drop b.length ≠ "" then some (t.drop b.length) else none) := by
      unfold computeDelta
      rw [if_pos hc]
      simp [h]
    rw [hval]
    by_cases hn : t.drop b.length ≠ ""
    · rw [if_pos hn]
      exact ⟨rfl, append_drop_of_sw h⟩
    · rw [if_neg hn]
      push_neg at hn
      have hbt := append_drop_of_sw h
      rw [hn, String.append_empty] at hbt
      exact ⟨rfl, by rw [Option.getD_none, String.append_empty]; exact hbt⟩
  · have hval : computeDelta b t = (b, none) := by
      unfold computeDelta
      rw [if_neg hc]
    rw [hval]
    push_neg at hc
    by_cases he : t = ""
    · have hb : b = "" := by
        unfold pyStartswith at h
        rw [List.isPrefixOf_iff_prefix] at h
        subst he
        exact String.ext (List.prefix_nil.mp h)
      subst he
      subst hb
      exact ⟨rfl, rfl⟩
    · have hb := hc he
      subst hb
      exact ⟨rfl, by rw [Option.getD_none, String.append_empty]⟩

lemma concatAll_append (a b : List String) :
    concatAll (a ++ b) = concatAll a ++ concatAll b := by
  induction a with
  | nil => simp [concatAll]
  | cons s l ih => simp [concatAll, ih, String.append_assoc]

lemma concatAll_toList (o : Option String) : concatAll o.toList = o.getD "" := by
  cases o <;> simp [concatAll]

/-- One `assistant` snapshot event, reduced: the loop never raises on it,
updates the buffer via `computeDelta`, and leaves the token count
alone (the event carries no usage). -/
lemma handleEvent_assistant (st : StreamState) (s : String) :
    handleEvent st (assistantEvent s) =
      .ok (⟨(computeDelta st.buffer s).1, st.output_tokens⟩,
           (computeDelta st.buffer s).2) := rfl

/-- The loop invariant over a chain of snapshots each starting with its
predecessor: processing succeeds, the buffer's growth is exactly the
concatenation of the emitted deltas, and the final buffer is the last
snapshot. -/
lemma assistant_fold : ∀ (snaps : List String) (st : StreamState),
    List.Chain (fun a b => pyStartswith b a = true) st.buffer snaps →
    ∃ stf ds, processEvents st (snaps.map assistantEvent) = .ok (stf, ds) ∧
      st.buffer ++ concatAll ds = stf.buffer ∧
      stf.buffer = snaps.getLastD st.buffer := by
  intro snaps
  induction snaps with
  | nil =>
    intro st _
    exact ⟨st, [], rfl, by simp [concatAll], rfl⟩
  | cons t ts ih =>
    intro st hch
    rcases hch with _ | ⟨hp, hch'⟩
    have hcd := computeDelta_of_sw hp
    have hch1 : List.Chain (fun a b => pyStartswith b a = true)
        (StreamState.mk (computeDelta st.buffer t).1 st.output_tokens).buffer ts := by
      show List.Chain _ (computeDelta st.buffer t).1 ts
      rw [hcd.1]
      exact hch'
    obtain ⟨stf, ds, heq, hcat, hlast⟩ := ih ⟨(computeDelta st.buffer t).1, st.output_tokens⟩ hch1
    refine ⟨stf, (computeDelta st.buffer t).2.toList ++ ds, ?_, ?_, ?_⟩
    · simp only [List.map, processEvents, handleEvent_assistant, heq]
    · rw [concatAll_append, concatAll_toList, ← String.append_assoc, hcd.2]
      have hb1 : (StreamState.mk (computeDelta st.buffer t).1 st.output_tokens).buffer = t :=
        hcd.1
      rw [hb1] at hcat
      exact hcat
    · rw [List.getLastD_cons, hlast]
      have hb1 : (StreamState.mk (computeDelta st.buffer t).1 st.output_tokens).buffer = t :=
        hcd.1
      rw [hb1]

/-! ## Claims -/

/-- C1: in the streaming path, for snapshots S1, S2, S3 with each a
string prefix of the next and the accumulator starting empty, the
concatenation of the emitted content-delta texts equals the final
snapshot S3 — no characters duplicated or dropped. -/
theorem stream_prefix_deltas_concat (s1 s2 s3 : String)
    (h12 : pyStartswith s2 s1 = true) (h23 : pyStartswith s3 s2 = true) :
    concatAll (assistantDeltas [s1, s2, s3]) = s3 := by
  have hch : List.Chain (fun a b => pyStartswith b a = true) initState.buffer [s1, s2, s3] :=
    List.Chain.cons (pyStartswith_empty_pre s1)
      (List.Chain.cons h12 (List.Chain.cons h23 List.Chain.nil))
  obtain ⟨stf, ds, heq, hcat, hlast⟩ := assistant_fold [s1, s2, s3] initState hch
  unfold assistantDeltas
  rw [heq]
  have hbuf : initState.buffer = "" := rfl
  rw [hbuf, String.empty_append] at hcat
  rw [hcat, hlast]
  rfl

theorem stream_prefix_deltas_concat_witness :
    concatAll (assistantDeltas ["a", "ab", "abc"]) = "abc" :=
  stream_prefix_deltas_concat "a" "ab" "abc" rfl rfl

/-- C2: in the streaming path, a non-empty snapshot that differs from the
buffer and does not start with it is emitted whole as the delta, and the
buffer is replaced by the snapshot (not appended to). -/
theorem stream_nonprefix_full_replacement (b : String) (tok : Json) (t : String)
    (h1 : t ≠ "") (h2 : t ≠ b) (h3 : pyStartswith t b = false) :
    handleEvent ⟨b, tok⟩ (assistantEvent t) = .ok (⟨t, tok⟩, some t) := by
  rw [handleEvent_assistant]
  unfold computeDelta
  rw [if_pos ⟨h1, h2⟩]
  simp only [h3, if_false, Bool.false_eq_true]
  rw [if_pos h1]

theorem stream_nonprefix_full_replacement_witness :
    handleEvent ⟨"Hello", Json.num 0 0⟩ (assistantEvent "Bonjour") =
      .ok (⟨"Bonjour", Json.num 0 0⟩, some "Bonjour") :=
  stream_nonprefix_full_replacement "Hello" (Json.num 0 0) "Bonjour"
    (by decide) (by decide) rfl

lemma lookup_val_mem :
    ∀ (l : List (String × String)) (m v : String),
      l.lookup m = some v → v ∈ l.map Prod.snd := by
  intro l
  induction l with
  | nil => intro m v h; simp [List.lookup] at h
  | cons p rest ih =>
    intro m v h
    rcases p with ⟨k, w⟩
    rw [List.lookup] at h
    by_cases he : m == k
    · rw [he] at h
      simp only at h
      have hw : w = v := by injection h
      subst hw
      simp
    · rw [Bool.eq_false_iff.mpr he] at h
      simp only at h
      exact List.mem_cons_of_mem _ (ih m v h)

/-- C8: `_map_model` always returns one of the three canonical short
names, and any identifier outside the mapping table maps to the default
`"sonnet"` rather than failing. -/
theorem map_model_closed_set (model : String) :
    (_map_model model = "opus" ∨ _map_model model = "sonnet" ∨ _map_model model = "haiku") ∧
    (MODEL_MAPPING.lookup model = none → _map_model model = "sonnet") := by
  constructor
  · unfold _map_model
    cases h : MODEL_MAPPING.lookup model with
    | none => simp
    | some v =>
      have hv := lookup_val_mem _ _ _ h
      simp only [ MODEL_MAPPING, List.map, List.mem_cons, List.mem_singleton,
        List.mem_nil_iff, or_false] at hv
      simp only [Option.getD_some]
      rcases hv with h' | h' | h' | h' | h' | h' | h' | h' | h' | h' <;> subst h' <;> simp
  · intro h
    unfold _map_model
    rw [h]
    rfl

theorem map_model_closed_set_witness :
    MODEL_MAPPING.lookup "gpt-4" = none ∧ _map_model "gpt-4" = "sonnet" :=
  ⟨rfl, (map_model_closed_set "gpt-4").2 rfl⟩

/-- C4, counterexample: a zero-exit run whose stdout `" not json "` is
not valid JSON is returned as a success, but its text is the *stripped*
stdout, not the raw stdout verbatim. -/
theorem nonjson_stdout_not_verbatim :
    json_loads " not json " = none ∧
    (send_message (.ok 0 " not json " "")).error = false ∧
    (send_message (.ok 0 " not json " "")).content ≠ some (Json.str " not json ") := by
  refine ⟨rfl, rfl, ?_⟩
  have hc : (send_message (.ok 0 " not json " "")).content = some (Json.str "not json") := rfl
  rw [hc]
  simp only [ne_eq, Option.some.injEq, Json.str.injEq]
  decide

/-- C4, amended: in the non-streaming path, a zero-exit run whose
(stripped) stdout is not valid JSON returns a success result — not a
failure — whose text is the whitespace-stripped stdout and whose session
id is `None`. -/
theorem nonjson_stdout_fallback (stdout stderr : String)
    (h : json_loads (pyStrip stdout) = none) :
    send_message (.ok 0 stdout stderr) =
      { error := false, content := some (.str (pyStrip stdout)),
        session_id := some Json.null } := by
  simp only [send_message]
  rw [if_neg (by simp), h]

theorem nonjson_stdout_fallback_witness :
    send_message (.ok 0 "not json\n" "xyz") =
      { error := false, content := some (.str "not json"),
        session_id := some Json.null } :=
  (nonjson_stdout_fallback "not json\n" "xyz" rfl).trans rfl

/-- C5: a spawn failure because the executable cannot be located yields,
on the non-streaming path, a failure result with the fixed
tool-not-found message, and, on the streaming path, a single error event
with the fixed tool-not-found message; both paths return normally
instead of propagating the fault. -/
theorem tool_not_found_fixed_messages (model msgId : String) :
    send_message SpawnOutcome.fileNotFound =
      { error := true,
        message := some "Claude Code CLI not found. Please install it first." } ∧
    send_message_stream model msgId SpawnStream.fileNotFound =
      [.yieldEv (.error "api_error" "Claude Code CLI not found")] :=
  ⟨rfl, rfl⟩

/-- C6: in the non-streaming path, a non-zero exit status returns a
failure result carrying stderr's decoded text, or the fixed
`"Unknown error"` placeholder when stderr is empty. -/
theorem nonzero_exit_stderr_failure (returncode : Int) (stdout stderr : String)
    (h : returncode ≠ 0) :
    send_message (.ok returncode stdout stderr) =
      { error := true,
        message := some (if stderr ≠ "" then stderr else "Unknown error") } := by
  simp only [send_message]
  rw [if_pos h]

theorem nonzero_exit_stderr_failure_witness :
    send_message (.ok 2 "" "boom") = { error := true, message := some "boom" } := by
  rw [nonzero_exit_stderr_failure 2 "" "boom" (by decide),
    if_pos (by decide : ("boom" : String) ≠ "")]

/-- C9: the code awaits the subprocess exit status only as the very last
action of a fully consumed, fault-free stream.  When an iteration raises
(here: the line `"5"` parses to a non-dict, so `.get` raises
`AttributeError` and the `except` handler yields the error event), the
trace contains no reap at all; and on the normal path every proper
prefix — what a consumer that abandons the stream observes — is
reap-free.  This contradicts the claim that the exit status is awaited
on every exit path. -/
theorem stream_wait_only_after_full_consumption :
    ((send_message_stream "m" "id" (.ok ["5"])).any StreamAct.isWait) = false ∧
    (send_message_stream "m" "id" (.ok [])).getLast? = some StreamAct.waitProc ∧
    ((send_message_stream "m" "id" (.ok [])).dropLast.any StreamAct.isWait) = false :=
  ⟨rfl, rfl, rfl⟩

/-- C3: on a successful spawn with no exception during the loop, the
event sequence a consumer observes is exactly one `message_start`, one
`content_block_start` at index 0, the loop's content deltas at index 0
in order, then `content_block_stop` (index 0), `message_delta` with stop
reason `end_turn` and the final output-token count, and `message_stop` —
nothing else, in that order. -/
theorem stream_event_order (model msgId : String) (lines : List String)
    (st : StreamState) (ds : List String)
    (h : processLines initState lines = .ok (st, ds)) :
    streamEvents model msgId (.ok lines) =
      [Event.message_start msgId model, Event.content_block_start 0] ++
      ds.map (Event.content_block_delta 0) ++
      [Event.content_block_stop 0, Event.message_delta "end_turn" st.output_tokens,
       Event.message_stop] := by
  simp only [streamEvents, send_message_stream, h]
  simp [List.filterMap_append, List.filterMap_map, List.filterMap_cons, Function.comp]
  clear h
  induction ds with
  | nil => rfl
  | cons d rest ih =>
    simp only [List.filterMap_cons, Function.comp_apply, List.map_cons]
    rw [ih]

theorem stream_event_order_witness :
    streamEvents "m" "id0"
      (.ok ["\x7b\"type\": \"assistant\", \"message\": \x7b\"content\": [\x7b\"text\": \"He\"\x7d]\x7d\x7d",
            "",
            "diag line",
            "\x7b\"type\": \"assistant\", \"message\": \x7b\"content\": [\x7b\"text\": \"Hello\"\x7d]\x7d\x7d",
            "\x7b\"type\": \"result\", \"usage\": \x7b\"output_tokens\": 7\x7d\x7d"]) =
      [Event.message_start "id0" "m", Event.content_block_start 0,
       Event.content_block_delta 0 "He", Event.content_block_delta 0 "llo",
       Event.content_block_stop 0, Event.message_delta "end_turn" (Json.num 7 0),
       Event.message_stop] := by
  have h := stream_event_order "m" "id0"
    ["\x7b\"type\": \"assistant\", \"message\": \x7b\"content\": [\x7b\"text\": \"He\"\x7d]\x7d\x7d",
     "",
     "diag line",
     "\x7b\"type\": \"assistant\", \"message\": \x7b\"content\": [\x7b\"text\": \"Hello\"\x7d]\x7d\x7d",
     "\x7b\"type\": \"result\", \"usage\": \x7b\"output_tokens\": 7\x7d\x7d"]
    ⟨"Hello", Json.num 7 0⟩ ["He", "llo"] rfl
  simpa using h

/-- C10: a message dict lacking a `role` key entirely is treated as a
user message: the formatter emits a `User:`-labelled paragraph for it
instead of dropping it. -/
theorem missing_role_treated_as_user (c : Option MsgContent) (s : String)
    (h : contentToStr c = .ok s) :
    _format_messages_as_prompt [{ role := none, content := c }] none =
      .ok ("User: " ++ s) := by
  have h1 : msgPart { role := none, content := c } = .ok ["User: " ++ s] := by
    unfold msgPart
    rw [show ({ role := none, content := c } : Msg).content = c from rfl, h]
    rfl
  unfold _format_messages_as_prompt msgPartsAll
  rw [h1]
  rfl

theorem missing_role_treated_as_user_witness :
    _format_messages_as_prompt [{ role := none, content := some (.str "hello") }] none =
      .ok ("User: " ++ "hello") :=
  missing_role_treated_as_user (some (.str "hello")) "hello" rfl

lemma blockWF_text {fields : List (String × Json)}
    (ht : (dictGetD fields "type" Json.null).eqStr "text" = true)
    (hw : blockWF (.bdict fields) = true) :
    ∃ s, dictGetD fields "text" (.str "") = .str s := by
  simp only [blockWF] at hw
  rw [if_pos ht] at hw
  cases h : dictGetD fields "text" (.str "") <;> rw [h] at hw <;> simp at hw
  exact ⟨_, rfl⟩

/-- Under well-formed text parts, the values the loop collects are the
strings the spec describes, so the Python `join` succeeds and agrees
with the spec's per-part extraction. -/
lemma blockTexts_wf_spec (l : List Block) (hw : l.all blockWF = true) :
    mapAsStr (blockTexts l) = .ok (l.filterMap specBlockText) := by
  induction l with
  | nil => rfl
  | cons b bs ih =>
    rw [List.all_cons, Bool.and_eq_true] at hw
    have ihr := ih hw.2
    cases b with
    | bstr s =>
      simp [blockTexts, mapAsStr, specBlockText, ihr, List.filterMap_cons, Except.map]
    | bdict fields =>
      by_cases ht : (dictGetD fields "type" Json.null).eqStr "text" = true
      · obtain ⟨s, hs⟩ := blockWF_text ht hw.1
        simp [blockTexts, ht, hs, mapAsStr, specBlockText, ihr, List.filterMap_cons,
          Except.map]
      · rw [Bool.not_eq_true] at ht
        simp [blockTexts, specBlockText, ht, ihr, List.filterMap_cons]
    | bother v =>
      simp [blockTexts, specBlockText, ihr, List.filterMap_cons]

lemma contentToStr_spec (c : Option MsgContent)
    (hw : ∀ l, c = some (.blocks l) → l.all blockWF = true) :
    contentToStr c = .ok (specText c) := by
  cases c with
  | none => rfl
  | some mc =>
    cases mc with
    | str s => rfl
    | blocks l =>
      have hl := hw l rfl
      simp only [contentToStr, specText, pyJoin]
      rw [blockTexts_wf_spec l hl]
      rfl

lemma msgPart_spec (m : Msg) (hr : m.role ≠ none) (hw : msgWF m = true) :
    msgPart m = .ok (specMsgPara m).toList := by
  obtain ⟨r, hrr⟩ := Option.ne_none_iff_exists'.mp hr
  have hc : contentToStr m.content = .ok (specText m.content) := by
    apply contentToStr_spec
    intro l hl
    unfold msgWF at hw
    rw [hl] at hw
    exact hw
  unfold msgPart specMsgPara
  rw [hrr, hc]
  simp only [Option.getD_some]
  by_cases h1 : r = "user"
  · simp [h1]
  · by_cases h2 : r = "assistant"
    · simp [h1, h2]
    · simp [h1, h2]

lemma msgPartsAll_spec (messages : List Msg)
    (hr : ∀ m ∈ messages, m.role ≠ none) (hw : ∀ m ∈ messages, msgWF m = true) :
    msgPartsAll messages = .ok (messages.filterMap specMsgPara) := by
  induction messages with
  | nil => rfl
  | cons m ms ih =>
    unfold msgPartsAll
    rw [msgPart_spec m (hr m (by simp)) (hw m (by simp)),
      ih (fun x hx => hr x (by simp [hx])) (fun x hx => hw x (by simp [hx]))]
    cases hp : specMsgPara m <;> simp [List.filterMap_cons, hp]

/-- C7, counterexample: with an empty-string preamble the code emits no
bracketed system paragraph at all (Python truthiness of `if system:`),
while the claim's wording — a system paragraph whenever a preamble is
present — demands one. -/
theorem formatter_empty_system_dropped :
    _format_messages_as_prompt [] (some "") = .ok "" ∧
    claimedFormat [] (some "") = "[System: ]" ∧
    ("" : String) ≠ "[System: ]" :=
  ⟨rfl, rfl, by decide⟩

/-- C7, amended: for every conversation whose messages carry a role and
whose text parts are well formed, the formatter emits the bracketed
system paragraph first when the preamble is present *and non-empty*,
then one role-labelled paragraph per `user`/`assistant` message in
original order joined by blank lines, multi-part text joined by
newlines; non-text parts and other-role messages never appear. -/
theorem formatter_spec_shape (messages : List Msg) (system : Option String)
    (hr : ∀ m ∈ messages, m.role ≠ none)
    (hw : ∀ m ∈ messages, msgWF m = true) :
    _format_messages_as_prompt messages system = .ok (amendedFormat messages system) := by
  unfold _format_messages_as_prompt amendedFormat
  rw [msgPartsAll_spec messages hr hw]

theorem formatter_spec_shape_witness :
    _format_messages_as_prompt
      [{ role := some "user", content := some (.str "Hi") },
       { role := some "assistant",
         content := some (.blocks
           [.bstr "a",
            .bdict [("type", .str "text"), ("text", .str "b")],
            .bdict [("type", .str "image"), ("source", .obj [])],
            .bother .null]) },
       { role := some "system", content := some (.str "dropped") }]
      (some "S") =
      .ok "[System: S]\n\nUser: Hi\n\nAssistant: a\nb" := by
  have h := formatter_spec_shape
    [{ role := some "user", content := some (.str "Hi") },
     { role := some "assistant",
       content := some (.blocks
         [.bstr "a",
          .bdict [("type", .str "text"), ("text", .str "b")],
          .bdict [("type", .str "image"), ("source", .obj [])],
          .bother .null]) },
     { role := some "system", content := some (.str "dropped") }]
    (some "S") (by decide) (by decide)
  exact h.trans rfl
